import Mathlib

/-!
Shallow embedding of the jicoo-slack-bot webhook route
(src/app/api/jicoo/route.ts): the signature authenticator
(parseSignature, isFreshTimestamp, verifySignature), the notification
builder (buildSlackPayload and its helpers) and the POST control flow.
JavaScript runtime primitives the route leans on (String.prototype.trim,
String.prototype.split, Number(), Buffer.from(·, 'hex'),
crypto.timingSafeEqual) are embedded by their documented ECMAScript /
Node.js semantics on the fragments the route exercises.
-/

namespace JicooBot

/-! ## JavaScript string and number primitives -/

/-- White space recognised by JavaScript string trimming and by
Number() conversion (the ASCII part plus NBSP and BOM; other Unicode
space code points are not exercised by the claims). -/
def isJsWs (c : Char) : Bool :=
  c == ' ' || c == '\t' || c == '\n' || c == '\x0d' ||
  c == '\x0b' || c == '\x0c' || c == ' ' || c == '﻿'

/-- Embeds String.prototype.trim on the character list. -/
def trimChars (l : List Char) : List Char :=
  ((l.dropWhile isJsWs).reverse.dropWhile isJsWs).reverse

/-- Embeds String.prototype.split with a one-character separator:
JavaScript keeps empty pieces, and an empty input yields one empty piece. -/
def splitOnChar (sep : Char) : List Char → List (List Char)
  | [] => [[]]
  | c :: rest =>
    let r := splitOnChar sep rest
    if c == sep then [] :: r
    else
      match r with
      | h :: t => (c :: h) :: t
      | [] => [[c]]

/-- Value of a hexadecimal digit, or none. -/
def hexVal (c : Char) : Option Nat :=
  if '0' ≤ c ∧ c ≤ '9' then some (c.toNat - '0'.toNat)
  else if 'a' ≤ c ∧ c ≤ 'f' then some (c.toNat - 'a'.toNat + 10)
  else if 'A' ≤ c ∧ c ≤ 'F' then some (c.toNat - 'A'.toNat + 10)
  else none

def binDigit (c : Char) : Option Nat :=
  if c == '0' then some 0 else if c == '1' then some 1 else none

def octDigit (c : Char) : Option Nat :=
  if '0' ≤ c ∧ c ≤ '7' then some (c.toNat - '0'.toNat) else none

/-- Decimal value of a digit string (most significant first). -/
def digitsVal (l : List Char) : Nat :=
  l.foldl (fun a c => a * 10 + (c.toNat - '0'.toNat)) 0

/-- Result of JavaScript number conversion: NaN, a signed infinity, or a
finite value.  Finite doubles are embedded as rationals; the rounding of
values beyond double precision is not exercised by any claim. -/
inductive JsNum where
  | nan : JsNum
  | inf (neg : Bool) : JsNum
  | fin (q : ℚ) : JsNum
deriving DecidableEq

/-- Exponent part of a decimal numeric literal: e or E, an optional
sign, then one or more digits consuming the whole rest. -/
def parseExp (mant : ℚ) (l : List Char) : Option ℚ :=
  let sn : Bool × List Char :=
    match l with
    | '+' :: r => (false, r)
    | '-' :: r => (true, r)
    | _ => (false, l)
  if sn.2.isEmpty || !sn.2.all Char.isDigit then none
  else
    let e := digitsVal sn.2
    some (if sn.1 then mant / (10 : ℚ) ^ e else mant * (10 : ℚ) ^ e)

/-- Unsigned decimal literal of ECMAScript StringNumericLiteral:
digits, an optional point with optional fractional digits, an optional
exponent; at least one digit overall, nothing left over. -/
def parseDecimal (l : List Char) : Option ℚ :=
  let ip := l.takeWhile Char.isDigit
  let r1 := l.dropWhile Char.isDigit
  let fpr : List Char × List Char :=
    match r1 with
    | '.' :: rest => (rest.takeWhile Char.isDigit, rest.dropWhile Char.isDigit)
    | _ => ([], r1)
  if ip.isEmpty && fpr.1.isEmpty then none
  else
    let mant : ℚ :=
      if fpr.1.isEmpty then (digitsVal ip : ℚ)
      else (digitsVal ip : ℚ) + (digitsVal fpr.1 : ℚ) / (10 : ℚ) ^ fpr.1.length
    match fpr.2 with
    | [] => some mant
    | 'e' :: rest => parseExp mant rest
    | 'E' :: rest => parseExp mant rest
    | _ => none

/-- Signed part of StringNumericLiteral: an optional sign, then
Infinity or a decimal literal. -/
def signedNumber (l : List Char) : JsNum :=
  let sn : Bool × List Char :=
    match l with
    | '+' :: r => (false, r)
    | '-' :: r => (true, r)
    | _ => (false, l)
  if sn.2 = ['I', 'n', 'f', 'i', 'n', 'i', 't', 'y'] then .inf sn.1
  else
    match parseDecimal sn.2 with
    | some q => .fin (if sn.1 then -q else q)
    | none => .nan

/-- Unsigned radix literal (after 0x / 0o / 0b): one or more digits of
the radix consuming the whole rest. -/
def radixNumber (b : Nat) (dv : Char → Option Nat) (l : List Char) : JsNum :=
  if l.isEmpty then .nan
  else
    match l.foldl (fun (acc : Option Nat) c => acc.bind fun n => (dv c).map fun d => n * b + d)
        (some 0) with
    | some n => .fin (n : ℚ)
    | none => .nan

/-- Embeds the JavaScript Number() conversion of a string
(ECMAScript ToNumber on the String type): trim white space; empty means
0; 0x/0o/0b radix literals (no sign); otherwise an optionally signed
decimal literal or Infinity; anything else is NaN. -/
def jsToNumber (s : String) : JsNum :=
  match trimChars s.data with
  | [] => .fin 0
  | '0' :: c :: rest =>
    if c == 'x' || c == 'X' then radixNumber 16 hexVal rest
    else if c == 'o' || c == 'O' then radixNumber 8 octDigit rest
    else if c == 'b' || c == 'B' then radixNumber 2 binDigit rest
    else signedNumber ('0' :: c :: rest)
  | l => signedNumber l

/-- Template-literal rendering of a JavaScript number.  The claims only
exercise integral values, rendered in decimal exactly as JavaScript
does; the rendering of non-integral rationals is a placeholder that no
claim and no theorem depends on. -/
def jsNumToString : JsNum → String
  | .nan => "NaN"
  | .inf neg => if neg then "-Infinity" else "Infinity"
  | .fin q => if q.den = 1 then toString q.num else toString q

/-- Truthiness of an optional string: JavaScript treats both an absent
value and the empty string as falsy. -/
def jsTruthy : Option String → Bool
  | none => false
  | some s => !(s = "")

/-! ## Buffer.from(·, 'hex') and crypto.timingSafeEqual -/

/-- Embeds Node.js Buffer.from(string, 'hex'): the string is decoded
two characters at a time, and decoding stops silently at the first pair
that is not two hexadecimal digits (or at a lone trailing character) —
invalid input is truncated, never an exception. -/
def bufferFromHex : List Char → List Nat
  | c1 :: c2 :: rest =>
    match hexVal c1, hexVal c2 with
    | some h, some lo => (16 * h + lo) :: bufferFromHex rest
    | _, _ => []
  | _ => []

/-- One step of the fixed-time comparison: fold in the XOR of the next
byte pair and count the step. -/
def ctStep (acc : Nat × Nat) (p : Nat × Nat) : Nat × Nat :=
  (acc.1 ||| (p.1 ^^^ p.2), acc.2 + 1)

/-- Instrumented fixed-time comparison: first component accumulates the
OR of all byte XORs, second counts how many byte pairs were visited.
The loop never exits early: it always folds over the whole zip. -/
def timingSafeEqualAux (a b : List Nat) : Nat × Nat :=
  (a.zip b).foldl ctStep (0, 0)

/-- Embeds crypto.timingSafeEqual (called on equal-length buffers):
true exactly when the accumulated XOR of every byte pair is zero. -/
def timingSafeEqual (a b : List Nat) : Bool :=
  (timingSafeEqualAux a b).1 == 0

/-! ## Authenticator (parseSignature, isFreshTimestamp, verifySignature) -/

/-- Parsed Jicoo-Webhook-Signature header: the route keeps the
timestamp as the JavaScript number Number(t) produced and the v1 value
as the provided hex signature string. -/
structure SignatureParts where
  timestamp : JsNum
  signature : String
deriving DecidableEq

/-- Comma-separated key=value pairs of the header, each side trimmed;
pairs with an empty key or value are dropped, exactly as the route's
reduce does (a later pair with the same key overwrites an earlier one,
which lookupLast reproduces). -/
def headerPairs (header : String) : List (String × String) :=
  (splitOnChar ',' header.data).foldl
    (fun acc part =>
      match (splitOnChar '=' part).map trimChars with
      | key :: value :: _ =>
        if key.isEmpty || value.isEmpty then acc
        else acc ++ [(String.mk key, String.mk value)]
      | _ => acc)
    []

/-- Last value stored for a key (JavaScript object assignment keeps the
last write). -/
def lookupLast (kvs : List (String × String)) (key : String) : Option String :=
  ((kvs.reverse).find? fun p => p.1 == key).map fun p => p.2

/-- Embeds parseSignature of the route: split on commas into trimmed
key=value pairs, require t and v1, convert t with Number() and reject
only NaN. -/
def parseSignature (header : String) : Option SignatureParts :=
  let kvs := headerPairs header
  match lookupLast kvs "t", lookupLast kvs "v1" with
  | some tv, some v1v =>
    match jsToNumber tv with
    | .nan => none
    | ts => some { timestamp := ts, signature := v1v }
  | _, _ => none

def SIGNATURE_TOLERANCE_SECONDS : ℚ := 60 * 5

/-- Embeds isFreshTimestamp: Math.abs(now - timestamp) <= 300, with
now the current Unix time in whole seconds.  A non-finite timestamp
compares false, as NaN and Infinity do in JavaScript. -/
def isFreshTimestamp (now : Int) (timestamp : JsNum) : Bool :=
  match timestamp with
  | .fin t => decide (|(now : ℚ) - t| ≤ SIGNATURE_TOLERANCE_SECONDS)
  | _ => false

/-- Signing string of the route: the timestamp rendered by the template
literal, a literal dot, then the raw request body. -/
def signedPayloadOf (parts : SignatureParts) (rawBody : String) : String :=
  jsNumToString parts.timestamp ++ "." ++ rawBody

/-- Embeds verifySignature.  crypto.createHmac('sha256', secret) is an
external collaborator, passed in as the function hmac from (secret,
message) to the lowercase hex digest.  Both hex strings are decoded
with Buffer.from(·, 'hex') — which truncates at invalid input instead
of throwing, so the route's catch branch is unreachable — then the
lengths are compared, then the bytes in fixed time. -/
def verifySignature (hmac : String → String → String) (parts : SignatureParts)
    (rawBody secret : String) : Bool :=
  let expectedSignature := hmac secret (signedPayloadOf parts rawBody)
  let expectedBuffer := bufferFromHex expectedSignature.data
  let providedBuffer := bufferFromHex parts.signature.data
  if expectedBuffer.length ≠ providedBuffer.length then false
  else timingSafeEqual expectedBuffer providedBuffer

/-! ## Event payload data model -/

/-- Content of one answer: a string or an array; an array element that
is not a string (possible in the loosely-typed payload) is embedded as
none and normalises to the empty string, as the route's typeof check
does. -/
inductive AnswerVal where
  | str (s : String) : AnswerVal
  | arr (items : List (Option String)) : AnswerVal
deriving DecidableEq

structure JicooContact where
  name : Option String := none
  email : Option String := none
  phone : Option String := none
  timezone : Option String := none
deriving DecidableEq

/-- One answer entry; content and value are each absent, a string or an
array (null and undefined both embed as none, which is exactly how the
route's ?? operator treats them). -/
structure JicooAnswer where
  question : Option String := none
  content : Option AnswerVal := none
  value : Option AnswerVal := none
deriving DecidableEq

structure JicooMeeting where
  url : Option String := none
  link : Option String := none
deriving DecidableEq

structure JicooMeetingLocation where
  url : Option String := none
  link : Option String := none
  value : Option String := none
deriving DecidableEq

structure BookingObject where
  id : Option String := none
  startedAt : Option String := none
  endedAt : Option String := none
  eventTypeName : Option String := none
  eventTypeId : Option String := none
  contact : Option JicooContact := none
  answers : Option (List JicooAnswer) := none
  googleMeetUrl : Option String := none
  hangoutLink : Option String := none
  hangoutUrl : Option String := none
  meetingUrl : Option String := none
  conferenceUrl : Option String := none
  meeting : Option JicooMeeting := none
  location : Option JicooMeetingLocation := none
deriving DecidableEq

structure JicooEventPayload where
  event : String
  object : Option BookingObject := none
  contact : Option JicooContact := none
  answers : Option (List JicooAnswer) := none
deriving DecidableEq

/-! ## Notification builder -/

def FALLBACK_TEXT : String := "不明"

/-- Embeds normalizeText: non-strings become undefined, strings are
trimmed, and an empty trimmed string counts as absent. -/
def normalizeText : Option String → Option String
  | none => none
  | some s =>
    let trimmed := String.mk (trimChars s.data)
    if trimmed = "" then none else some trimmed

/-- Embeds normalizeAnswerValue: arrays keep their trimmed non-empty
string elements joined by a comma and space; plain values go through
normalizeText. -/
def normalizeAnswerValue : Option AnswerVal → Option String
  | some (.arr items) =>
    let normalized :=
      (items.map fun it =>
        match it with
        | some s => String.mk (trimChars s.data)
        | none => "").filter fun it => !(it == "")
    if normalized.isEmpty then none
    else some (String.intercalate ", " normalized)
  | some (.str s) => normalizeText (some s)
  | none => none

def toLowerChars (l : List Char) : List Char := l.map Char.toLower

/-- Substring occurrence test on character lists. -/
def isInfixChars (pat : List Char) : List Char → Bool
  | [] => pat.isEmpty
  | c :: rest => pat.isPrefixOf (c :: rest) || isInfixChars pat rest

/-- Case-insensitive substring test, embedding a /x/i regex whose
pattern is a literal. -/
def containsCI (s pat : String) : Bool :=
  isInfixChars (toLowerChars pat.data) (toLowerChars s.data)

/-- Case-insensitive occurrence of p1 followed by optional white space
then p2 (a p1\s*p2 regex alternative; both patterns here start with a
non-space character, so dropping all white space is exact). -/
def hasSeqWs (p1 p2 : List Char) : List Char → Bool
  | [] => false
  | c :: rest =>
    (p1.isPrefixOf (c :: rest) &&
      p2.isPrefixOf (((c :: rest).drop p1.length).dropWhile isJsWs)) ||
    hasSeqWs p1 p2 rest

/-- Case-insensitive occurrence of p1 followed anywhere later by p2
(a p1.*p2 regex alternative). -/
def hasSeqAny (p1 p2 : List Char) : List Char → Bool
  | [] => false
  | c :: rest =>
    (p1.isPrefixOf (c :: rest) && isInfixChars p2 ((c :: rest).drop p1.length)) ||
    hasSeqAny p1 p2 rest

/-- Embeds PHONE_QUESTION_PATTERN.test: /(電話|phone|tel)/i. -/
def phoneQuestionTest (q : String) : Bool :=
  containsCI q "電話" || containsCI q "phone" || containsCI q "tel"

/-- Embeds GOOGLE_MEET_QUESTION_PATTERN.test:
the /(google\s*meet|meet\s*url|google\s*hangout|オンライン.*URL|URL.*Google)/i
alternation on the lowercased question. -/
def googleMeetQuestionTest (q : String) : Bool :=
  let l := toLowerChars q.data
  hasSeqWs "google".data "meet".data l ||
  hasSeqWs "meet".data "url".data l ||
  hasSeqWs "google".data "hangout".data l ||
  hasSeqAny "オンライン".data "url".data l ||
  hasSeqAny "url".data "google".data l

/-- Embeds findAnswerValue: first answer whose question is a non-empty
match of the pattern and whose content ?? value normalises to a
non-empty string; answers failing either test are passed over. -/
def findAnswerValue (answers : List JicooAnswer) (pat : String → Bool) : Option String :=
  answers.findSome? fun answer =>
    match answer.question with
    | none => none
    | some q =>
      if q = "" || !pat q then none
      else normalizeAnswerValue (answer.content.orElse fun _ => answer.value)

/-- Embeds collectAnswers: booking-level answers first, then top-level
answers, concatenated in source order. -/
def collectAnswers (p : JicooEventPayload) : List JicooAnswer :=
  (match p.object with
   | some o => o.answers.getD []
   | none => []) ++ p.answers.getD []

structure ContactInfo where
  name : String
  email : String
  phone : String
deriving DecidableEq

/-- Embeds getContactInfo: the booking-level contact when present (the
?? only falls through on null/undefined), else the top-level contact;
phone falls back to a phone-pattern answer before the placeholder. -/
def getContactInfo (p : JicooEventPayload) (answers : List JicooAnswer) : ContactInfo :=
  let contact := (p.object.bind fun o => o.contact).orElse fun _ => p.contact
  { name := (normalizeText (contact.bind fun c => c.name)).getD FALLBACK_TEXT
  , email := (normalizeText (contact.bind fun c => c.email)).getD FALLBACK_TEXT
  , phone :=
      ((normalizeText (contact.bind fun c => c.phone)).orElse fun _ =>
        findAnswerValue answers phoneQuestionTest).getD FALLBACK_TEXT }

def isSchemeChar (c : Char) : Bool :=
  c.isAlphanum || c == '+' || c == '-' || c == '.'

/-- Embeds looksLikeUrl: new URL(value) must succeed and the protocol
must be http or https.  The embedding accepts the canonical
scheme://host form with a non-empty host free of white space; the
other spellings the WHATWG parser tolerates are not exercised by the
route's inputs in any claim, and any non-http(s) scheme fails the
protocol test either way. -/
def looksLikeUrl (value : String) : Bool :=
  let l := value.data
  let scheme := l.takeWhile fun c => !(c == ':')
  let rest := l.dropWhile fun c => !(c == ':')
  match rest with
  | ':' :: afterColon =>
    let schemeOk := !scheme.isEmpty && (scheme.headD ' ').isAlpha && scheme.all isSchemeChar
    if !schemeOk then false
    else if toLowerChars scheme = "http".data || toLowerChars scheme = "https".data then
      match afterColon with
      | '/' :: '/' :: hostRest =>
        let host := hostRest.takeWhile fun c => !(c == '/' || c == '?' || c == '#')
        !host.isEmpty && host.all fun c => !isJsWs c
      | _ => false
    else false
  | _ => false

/-- Candidate meeting-link fields in the route's fixed order. -/
def candidatesOf (p : JicooEventPayload) : List (Option String) :=
  [ p.object.bind fun o => o.googleMeetUrl
  , p.object.bind fun o => o.hangoutLink
  , p.object.bind fun o => o.hangoutUrl
  , p.object.bind fun o => o.conferenceUrl
  , p.object.bind fun o => o.meetingUrl
  , (p.object.bind fun o => o.meeting).bind fun m => m.url
  , (p.object.bind fun o => o.meeting).bind fun m => m.link
  , (p.object.bind fun o => o.location).bind fun lo => lo.url
  , (p.object.bind fun o => o.location).bind fun lo => lo.link
  , (p.object.bind fun o => o.location).bind fun lo => lo.value ]

/-- The route's candidate loop: return the first candidate that
normalises to a non-empty string accepted by looksLikeUrl; any other
candidate, present or not, is passed over. -/
def findUrlLoop : List (Option String) → Option String
  | [] => none
  | candidate :: rest =>
    match normalizeText candidate with
    | some normalized =>
      if looksLikeUrl normalized then some normalized else findUrlLoop rest
    | none => findUrlLoop rest

/-- Embeds extractGoogleMeetUrl: the candidate loop, then one lookup of
a meeting-pattern answer which is used only if it looks like a URL,
then the placeholder. -/
def extractGoogleMeetUrl (p : JicooEventPayload) (answers : List JicooAnswer) : String :=
  match findUrlLoop (candidatesOf p) with
  | some url => url
  | none =>
    match findAnswerValue answers googleMeetQuestionTest with
    | some answerUrl => if looksLikeUrl answerUrl then answerUrl else FALLBACK_TEXT
    | none => FALLBACK_TEXT

/-! ## Date rendering (toJstString) -/

def isLeapYear (y : Int) : Bool :=
  (y % 4 == 0 && y % 100 != 0) || y % 400 == 0

def daysInMonth (y m : Int) : Int :=
  if m = 2 then (if isLeapYear y then 29 else 28)
  else if m = 4 ∨ m = 6 ∨ m = 9 ∨ m = 11 then 30
  else 31

/-- Days since 1970-01-01 of a proleptic Gregorian date (the standard
era-based civil-from-days algorithm, floor division throughout). -/
def daysFromCivil (y m d : Int) : Int :=
  let y2 := if m ≤ 2 then y - 1 else y
  let mp := if m ≤ 2 then m + 9 else m - 3
  let era := Int.fdiv y2 400
  let yoe := y2 - era * 400
  let doy := Int.fdiv (153 * mp + 2) 5 + d - 1
  let doe := yoe * 365 + Int.fdiv yoe 4 - Int.fdiv yoe 100 + doy
  era * 146097 + doe - 719468

/-- Inverse of daysFromCivil: (year, month, day) of a day count. -/
def civilFromDays (z : Int) : Int × Int × Int :=
  let z2 := z + 719468
  let era := Int.fdiv z2 146097
  let doe := z2 - era * 146097
  let yoe := Int.fdiv (doe - Int.fdiv doe 1460 + Int.fdiv doe 36524 - Int.fdiv doe 146096) 365
  let y := yoe + era * 400
  let doy := doe - (365 * yoe + Int.fdiv yoe 4 - Int.fdiv yoe 100)
  let mp := Int.fdiv (5 * doy + 2) 153
  let d := doy - Int.fdiv (153 * mp + 2) 5 + 1
  let m := if mp < 10 then mp + 3 else mp - 9
  (if m ≤ 2 then y + 1 else y, m, d)

/-- Millis-and-zone tail of the ISO form: either Z alone, or a point,
one to three digits and Z. -/
def tailIsMillisZ : List Char → Bool
  | ['Z'] => true
  | '.' :: rest =>
    let ds := rest.takeWhile Char.isDigit
    decide (1 ≤ ds.length) && decide (ds.length ≤ 3) &&
      rest.dropWhile Char.isDigit == ['Z']
  | _ => false

/-- Embeds the external Date parser on the ISO-8601 UTC subset the
webhook carries (YYYY-MM-DDTHH:MM:SS[.mmm]Z, fields in range): the Unix
time in seconds.  Every other string is treated as an invalid date, on
which the route's Intl formatter throws. -/
def jsDateParse (s : String) : Option Int :=
  match s.data with
  | y1 :: y2 :: y3 :: y4 :: c1 :: m1 :: m2 :: c2 :: d1 :: d2 :: ct ::
      h1 :: h2 :: c3 :: i1 :: i2 :: c4 :: s1 :: s2 :: rest =>
    if ([y1, y2, y3, y4, m1, m2, d1, d2, h1, h2, i1, i2, s1, s2].all Char.isDigit &&
        (c1 == '-' && c2 == '-' && ct == 'T' && c3 == ':' && c4 == ':') &&
        tailIsMillisZ rest) then
      let y := digitsVal [y1, y2, y3, y4]
      let mo := digitsVal [m1, m2]
      let d := digitsVal [d1, d2]
      let hh := digitsVal [h1, h2]
      let mi := digitsVal [i1, i2]
      let se := digitsVal [s1, s2]
      if 1 ≤ mo ∧ mo ≤ 12 ∧ 1 ≤ d ∧ (d : Int) ≤ daysInMonth (y : Int) (mo : Int) ∧
          hh ≤ 23 ∧ mi ≤ 59 ∧ se ≤ 59 then
        some (daysFromCivil y mo d * 86400 + hh * 3600 + mi * 60 + se)
      else none
    else none
  | _ => none

def pad2 (n : Nat) : String :=
  if n < 10 then "0" ++ toString n else toString n

/-- The ja-JP formatter of the route in the Asia/Tokyo zone (UTC+9, no
DST): numeric year and 2-digit month, day, hour and minute, as
YYYY/MM/DD HH:MM. -/
def formatJaJp (epoch : Int) : String :=
  let t := epoch + 9 * 3600
  let days := Int.fdiv t 86400
  let secs := (t - days * 86400).toNat
  let ymd := civilFromDays days
  toString ymd.1 ++ "/" ++ pad2 ymd.2.1.toNat ++ "/" ++ pad2 ymd.2.2.toNat ++ " " ++
    pad2 (secs / 3600) ++ ":" ++ pad2 (secs % 3600 / 60)

def replaceSlashes (s : String) : String :=
  String.mk (s.data.map fun c => if c == '/' then '-' else c)

/-- Embeds toJstString: a falsy (absent or empty) input gives the
placeholder; a parseable date is formatted for Asia/Tokyo and the
slashes replaced with dashes; an unparseable date makes the formatter
throw, and the catch branch returns the input string itself. -/
def toJstString (dateTime : Option String) : String :=
  match dateTime with
  | none => FALLBACK_TEXT
  | some s =>
    if s = "" then FALLBACK_TEXT
    else
      match jsDateParse s with
      | some epoch => replaceSlashes (formatJaJp epoch)
      | none => s

/-! ## buildSlackPayload and the POST control flow -/

inductive SlackBlock where
  | headerBlock (text : String) : SlackBlock
  | sectionBlock (fields : List String) : SlackBlock
deriving DecidableEq

structure SlackPayload where
  text : String
  blocks : List SlackBlock
deriving DecidableEq

/-- Embeds buildSlackPayload: six normalized fields rendered twice, once
as lines of plain text and once as the parallel block fields. -/
def buildSlackPayload (payload : JicooEventPayload) : SlackPayload :=
  let answers := collectAnswers payload
  let ci := getContactInfo payload answers
  let startText := toJstString (payload.object.bind fun o => o.startedAt)
  let endText := toJstString (payload.object.bind fun o => o.endedAt)
  let googleMeetUrl := extractGoogleMeetUrl payload answers
  let heading := "新しい予約を受信しました"
  { text :=
      heading ++ "\n" ++
      "・名前: " ++ ci.name ++ "\n" ++
      "・メール: " ++ ci.email ++ "\n" ++
      "・電話番号: " ++ ci.phone ++ "\n" ++
      "・開始時刻: " ++ startText ++ "\n" ++
      "・終了時刻: " ++ endText ++ "\n" ++
      "・Google Meet: " ++ googleMeetUrl
  , blocks :=
      [ SlackBlock.headerBlock heading
      , SlackBlock.sectionBlock
          [ "*名前*\n" ++ ci.name
          , "*メール*\n" ++ ci.email
          , "*電話番号*\n" ++ ci.phone
          , "*開始時刻*\n" ++ startText
          , "*終了時刻*\n" ++ endText
          , "*Google Meet*\n" ++ googleMeetUrl ] ] }

/-- Runtime configuration as getRuntimeConfig returns it: each field a
string or null. -/
structure RuntimeConfig where
  slackWebhookUrl : Option String
  jicooSecret : Option String
deriving DecidableEq

/-- Outcome of one POST, one constructor per return site of the route. -/
inductive HandlerResponse where
  | missingHeader : HandlerResponse
  | configMissing : HandlerResponse
  | invalidHeader : HandlerResponse
  | staleSignature : HandlerResponse
  | invalidSignature : HandlerResponse
  | invalidJson : HandlerResponse
  | ignoredEvent (name : String) : HandlerResponse
  | slackFailed : HandlerResponse
  | ok : HandlerResponse
deriving DecidableEq

/-- HTTP status of each outcome. -/
def statusOf : HandlerResponse → Nat
  | .missingHeader => 400
  | .configMissing => 503
  | .invalidHeader => 400
  | .staleSignature => 401
  | .invalidSignature => 401
  | .invalidJson => 400
  | .ignoredEvent _ => 200
  | .slackFailed => 502
  | .ok => 200

/-- Embeds the POST handler's control flow.  External collaborators are
parameters: hmac the HMAC-SHA256 hex digest, parseJson the JSON parse
of the raw body (none when it throws), now the current time in whole
seconds, sinkOk the outcome of the one Slack webhook call.  The second
component counts how many times the sink is called. -/
def POST (hmac : String → String → String)
    (parseJson : String → Option JicooEventPayload)
    (now : Int) (config : RuntimeConfig)
    (signatureHeader : Option String) (rawBody : String)
    (sinkOk : Bool) : HandlerResponse × Nat :=
  match signatureHeader with
  | none => (.missingHeader, 0)
  | some header =>
    if !jsTruthy config.jicooSecret || !jsTruthy config.slackWebhookUrl then
      (.configMissing, 0)
    else
      match parseSignature header with
      | none => (.invalidHeader, 0)
      | some parsedSignature =>
        if !isFreshTimestamp now parsedSignature.timestamp then
          (.staleSignature, 0)
        else if !verifySignature hmac parsedSignature rawBody (config.jicooSecret.getD "") then
          (.invalidSignature, 0)
        else
          match parseJson rawBody with
          | none => (.invalidJson, 0)
          | some payload =>
            if payload.event ≠ "guest_booked" then (.ignoredEvent payload.event, 0)
            else if sinkOk then (.ok, 1) else (.slackFailed, 1)

/-! ## Specification-side meeting-link definitions, for comparison with
extractGoogleMeetUrl -/

/-- Follows the claim's words for the meeting link: the first candidate
that after trimming parses as a well-formed http(s) URL; if no
candidate qualifies, the first meeting-pattern answer THAT PARSES AS A
URL; otherwise the placeholder. -/
def claimMeetingLink (p : JicooEventPayload) (answers : List JicooAnswer) : String :=
  match (candidatesOf p).findSome? (fun c =>
      (normalizeText c).bind fun n => if looksLikeUrl n then some n else none) with
  | some u => u
  | none =>
    match answers.findSome? (fun a =>
        match a.question with
        | some q =>
          if q = "" || !googleMeetQuestionTest q then none
          else
            (normalizeAnswerValue (a.content.orElse fun _ => a.value)).bind fun v =>
              if looksLikeUrl v then some v else none
        | none => none) with
    | some u => u
    | none => FALLBACK_TEXT

/-- Follows the amended claim's words: as claimMeetingLink for the
candidate fields, but when no candidate qualifies only the FIRST
matching answer with non-empty content is consulted, and it is used
only if it parses as a URL. -/
def claimMeetingLinkAmended (p : JicooEventPayload) (answers : List JicooAnswer) : String :=
  match (candidatesOf p).findSome? (fun c =>
      (normalizeText c).bind fun n => if looksLikeUrl n then some n else none) with
  | some u => u
  | none =>
    match findAnswerValue answers googleMeetQuestionTest with
    | some v => if looksLikeUrl v then v else FALLBACK_TEXT
    | none => FALLBACK_TEXT

/-! ## Helper lemmas -/

theorem lor_eq_zero_iff (a b : Nat) : a ||| b = 0 ↔ a = 0 ∧ b = 0 := by
  constructor
  · intro h
    have ha : ∀ i, a.testBit i = false := by
      intro i
      have h2 := congrArg (fun n => Nat.testBit n i) h
      simp only [Nat.testBit_or, Nat.zero_testBit, Bool.or_eq_false_iff] at h2
      exact h2.1
    have hb : ∀ i, b.testBit i = false := by
      intro i
      have h2 := congrArg (fun n => Nat.testBit n i) h
      simp only [Nat.testBit_or, Nat.zero_testBit, Bool.or_eq_false_iff] at h2
      exact h2.2
    constructor
    · exact Nat.eq_of_testBit_eq fun i => by simp [ha i]
    · exact Nat.eq_of_testBit_eq fun i => by simp [hb i]
  · rintro ⟨rfl, rfl⟩
    rfl

theorem ctStep_foldl_snd (l : List (Nat × Nat)) (d s : Nat) :
    (l.foldl ctStep (d, s)).2 = s + l.length := by
  induction l generalizing d s with
  | nil => simp
  | cons p t ih =>
    simp only [List.foldl_cons, ctStep, List.length_cons]
    rw [ih]
    omega

theorem ctStep_foldl_fst (l : List (Nat × Nat)) (d s : Nat) :
    ((l.foldl ctStep (d, s)).1 = 0 ↔ d = 0 ∧ ∀ p ∈ l, p.1 = p.2) := by
  induction l generalizing d s with
  | nil => simp
  | cons p t ih =>
    simp only [List.foldl_cons, ctStep, List.mem_cons]
    rw [ih, lor_eq_zero_iff, Nat.xor_eq_zero]
    constructor
    · rintro ⟨⟨hd, hp⟩, hrest⟩
      exact ⟨hd, fun q hq => hq.elim (fun e => e ▸ hp) (hrest q)⟩
    · rintro ⟨hd, hall⟩
      exact ⟨⟨hd, hall p (Or.inl rfl)⟩, fun q hq => hall q (Or.inr hq)⟩

theorem zip_fst_eq_snd_iff (a : List Nat) : ∀ b : List Nat, a.length = b.length →
    ((∀ p ∈ a.zip b, p.1 = p.2) ↔ a = b) := by
  induction a with
  | nil =>
    intro b hb
    cases b with
    | nil => simp
    | cons y u => simp at hb
  | cons x t ih =>
    intro b hb
    cases b with
    | nil => simp at hb
    | cons y u =>
      simp only [List.length_cons, Nat.add_right_cancel_iff] at hb
      simp only [List.zip_cons_cons, List.mem_cons, List.cons.injEq]
      constructor
      · intro h
        refine ⟨h (x, y) (Or.inl rfl), ?_⟩
        exact (ih u hb).mp fun q hq => h q (Or.inr hq)
      · rintro ⟨rfl, rfl⟩
        intro q hq
        rcases hq with rfl | hq
        · rfl
        · exact ((ih t hb).mpr rfl) q hq

theorem findUrlLoop_eq_findSome (l : List (Option String)) :
    findUrlLoop l = l.findSome? fun c =>
      (normalizeText c).bind fun n => if looksLikeUrl n then some n else none := by
  induction l with
  | nil => rfl
  | cons c rest ih =>
    rw [findUrlLoop, List.findSome?_cons]
    cases hn : normalizeText c with
    | none => simpa using ih
    | some n =>
      simp only [Option.bind_some]
      by_cases hu : looksLikeUrl n
      · simp [hu]
      · simp [hu, ih]

/-! ## Claim theorems -/

/-- C1: the claim says a provided signature that is not valid hex always
fails verification; the code instead decodes with Buffer.from(·, 'hex'),
which truncates at the first non-hex pair, so appending non-hex
characters to a correct signature still verifies.  Here the expected
HMAC digest is 64 hex characters and the provided signature is that
digest followed by "zz" — it contains non-hex characters, yet
verifySignature accepts it. -/
theorem c1_nonhex_signature_accepted :
    ((String.mk (List.replicate 64 'a') ++ "zz").data.all fun c => (hexVal c).isSome) = false ∧
    verifySignature (fun _ _ => String.mk (List.replicate 64 'a'))
      { timestamp := .fin 0, signature := String.mk (List.replicate 64 'a') ++ "zz" }
      "rawBody" "secret" = true := by
  exact ⟨by decide, by decide⟩

/-- C2 counterexample: with both configuration values absent and the
signature header also absent, the handler returns the 400
missing-header response, not the claimed 503 — the missing-header check
runs before the configuration check. -/
theorem c2_counterexample :
    POST (fun _ _ => "") (fun _ => none) 0
        { slackWebhookUrl := none, jicooSecret := none } none "body" true
      = (.missingHeader, 0) ∧
    statusOf .missingHeader = 400 ∧ statusOf .configMissing = 503 :=
  ⟨rfl, rfl, rfl⟩

/-- C2 (amended): when the signature header is PRESENT and the secret or
the sink URL is unconfigured (absent or empty), the handler responds 503
configMissing before any header parsing or validation — in particular a
malformed header value still yields 503, not 400; a wholly absent header
however yields the 400 missing-header response first. -/
theorem c2_config_503_before_validation
    (hmac : String → String → String) (parseJson : String → Option JicooEventPayload)
    (now : Int) (config : RuntimeConfig) (header rawBody : String) (sinkOk : Bool)
    (hcfg : jsTruthy config.jicooSecret = false ∨ jsTruthy config.slackWebhookUrl = false) :
    POST hmac parseJson now config (some header) rawBody sinkOk = (.configMissing, 0) := by
  unfold POST
  rcases hcfg with h | h <;> simp [h]

/-- C2 witness: an unconfigured secret with a malformed header value
gives the 503 response. -/
theorem c2_config_503_witness :
    POST (fun _ _ => "") (fun _ => none) 0
        { slackWebhookUrl := some "https://hooks.slack.com/services/x", jicooSecret := none }
        (some "garbage") "{}" true
      = (.configMissing, 0) :=
  c2_config_503_before_validation (fun _ _ => "") (fun _ => none) 0
    { slackWebhookUrl := some "https://hooks.slack.com/services/x", jicooSecret := none }
    "garbage" "{}" true (Or.inl rfl)

/-- C3: a parsed finite timestamp t is fresh for current time now
exactly when the absolute difference is at most 300 seconds (so exactly
300 is accepted, on either side), and whenever the difference exceeds
300 the handler returns the 401 stale response no matter what the
signature, secret or body are. -/
theorem c3_freshness_window (now : Int) (t : ℚ) :
    (isFreshTimestamp now (.fin t) = true ↔ |(now : ℚ) - t| ≤ 300) ∧
    (∀ hmac parseJson config header rawBody sinkOk parts,
      jsTruthy (RuntimeConfig.jicooSecret config) = true →
      jsTruthy (RuntimeConfig.slackWebhookUrl config) = true →
      parseSignature header = some parts →
      parts.timestamp = .fin t →
      ¬ |(now : ℚ) - t| ≤ 300 →
      POST hmac parseJson now config (some header) rawBody sinkOk = (.staleSignature, 0)) := by
  have hiff : isFreshTimestamp now (.fin t) = true ↔ |(now : ℚ) - t| ≤ 300 := by
    simp only [isFreshTimestamp, SIGNATURE_TOLERANCE_SECONDS, decide_eq_true_eq]
    norm_num
  refine ⟨hiff, ?_⟩
  intro hmac parseJson config header rawBody sinkOk parts hs hu hp ht hfar
  have hfresh : isFreshTimestamp now parts.timestamp = false := by
    rw [ht]
    cases hf : isFreshTimestamp now (.fin t) with
    | false => rfl
    | true => exact absurd (hiff.mp hf) hfar
  unfold POST
  simp [hs, hu, hp, hfresh]

/-- C3 witness: at now = 1000000, the timestamps 300 seconds in the
past and future are fresh, and a header carrying t = 1000301 (301
seconds ahead) makes the handler return the stale response. -/
theorem c3_freshness_witness :
    isFreshTimestamp 1000000 (.fin 1000300) = true ∧
    isFreshTimestamp 1000000 (.fin 999700) = true ∧
    POST (fun _ _ => "deadbeef") (fun _ => none) 1000000
        { slackWebhookUrl := some "https://hooks.slack.com/services/x", jicooSecret := some "s" }
        (some "t=1000301, v1=deadbeef") "{}" true
      = (.staleSignature, 0) := by
  refine ⟨?_, ?_, ?_⟩
  · exact (c3_freshness_window 1000000 1000300).1.mpr (by norm_num)
  · exact (c3_freshness_window 1000000 999700).1.mpr (by norm_num)
  · exact (c3_freshness_window 1000000 1000301).2 (fun _ _ => "deadbeef") (fun _ => none)
      { slackWebhookUrl := some "https://hooks.slack.com/services/x", jicooSecret := some "s" }
      "t=1000301, v1=deadbeef" "{}" true { timestamp := .fin 1000301, signature := "deadbeef" }
      rfl rfl (by decide) rfl (by norm_num)

/-- C4 counterexample: t values that are not decimal integers —
hexadecimal, fractional and exponent-notation numerals — are accepted
by parseSignature (JavaScript Number() converts them to non-NaN
numbers), contradicting the claim that they are rejected as
malformed. -/
theorem c4_counterexample :
    parseSignature "t=0x10, v1=ab" = some { timestamp := .fin 16, signature := "ab" } ∧
    (parseSignature "t=3.5, v1=ab").isSome = true ∧
    (parseSignature "t=1e3, v1=ab").isSome = true :=
  ⟨by decide, by decide, by decide⟩

/-- C4 (amended): parsing splits the header on commas into trimmed
key=value pairs and fails exactly when the t entry or the v1 entry is
missing, or when JavaScript Number() conversion of the t value is NaN;
any t value Number() converts (including fractional, hexadecimal and
exponent numerals) is accepted. -/
theorem c4_parse_malformed_iff (header : String) :
    parseSignature header = none ↔
      lookupLast (headerPairs header) "t" = none ∨
      lookupLast (headerPairs header) "v1" = none ∨
      (∃ tv, lookupLast (headerPairs header) "t" = some tv ∧ jsToNumber tv = .nan) := by
  unfold parseSignature
  cases ht : lookupLast (headerPairs header) "t" with
  | none => simp [ht]
  | some tv =>
    cases hv : lookupLast (headerPairs header) "v1" with
    | none => simp [ht, hv]
    | some v1v =>
      cases hn : jsToNumber tv with
      | nan => simp [ht, hv, hn]
      | inf b => simp [ht, hv, hn]
      | fin q => simp [ht, hv, hn]

/-- C4 witness: a header without t, and a header whose t value is not
numeric, both fail to parse. -/
theorem c4_parse_malformed_witness :
    parseSignature "v1=ab" = none ∧ parseSignature "t=zzz, v1=ab" = none := by
  constructor
  · exact (c4_parse_malformed_iff "v1=ab").mpr (Or.inl (by decide))
  · exact (c4_parse_malformed_iff "t=zzz, v1=ab").mpr
      (Or.inr (Or.inr ⟨"zzz", by decide, by decide⟩))

/-- C5: on equal-length byte sequences the comparison is the fixed-time
fold: it is true exactly on equal sequences, its step count equals the
common length — so the number of byte pairs visited is independent of
where (or whether) the sequences first differ — and verifySignature
decides by exactly this comparison once the decoded buffers have equal
length. -/
theorem c5_constant_time_compare (a b : List Nat) (h : a.length = b.length) :
    (timingSafeEqual a b = true ↔ a = b) ∧
    (timingSafeEqualAux a b).2 = a.length ∧
    (∀ a2 b2 : List Nat, a2.length = a.length → b2.length = a.length →
      (timingSafeEqualAux a2 b2).2 = (timingSafeEqualAux a b).2) ∧
    (∀ hmac parts rawBody secret,
      bufferFromHex (String.data (hmac secret (signedPayloadOf parts rawBody))) = a →
      bufferFromHex (String.data (SignatureParts.signature parts)) = b →
      (verifySignature hmac parts rawBody secret = true ↔ a = b)) := by
  have hsteps : ∀ x y : List Nat, (timingSafeEqualAux x y).2 = min x.length y.length := by
    intro x y
    unfold timingSafeEqualAux
    rw [ctStep_foldl_snd]
    simp [List.length_zip]
  have heq : timingSafeEqual a b = true ↔ a = b := by
    unfold timingSafeEqual timingSafeEqualAux
    rw [beq_iff_eq, ctStep_foldl_fst]
    simp only [true_and]
    exact zip_fst_eq_snd_iff a b h
  refine ⟨heq, ?_, ?_, ?_⟩
  · rw [hsteps, h]
    omega
  · intro a2 b2 h2 h3
    rw [hsteps, hsteps, h2, h3, h]
  · intro hmac parts rawBody secret ha hb
    have hv : verifySignature hmac parts rawBody secret =
        (if (bufferFromHex (String.data (hmac secret (signedPayloadOf parts rawBody)))).length ≠
            (bufferFromHex (String.data (SignatureParts.signature parts))).length then false
         else
           timingSafeEqual
             (bufferFromHex (String.data (hmac secret (signedPayloadOf parts rawBody))))
             (bufferFromHex (String.data (SignatureParts.signature parts)))) := rfl
    rw [hv, ha, hb, if_neg (by rw [h]; exact fun hne => hne rfl)]
    exact heq

/-- C5 witness: two equal-length two-byte buffers differing in the last
byte compare false, and the instrumented comparison still visits both
byte pairs. -/
theorem c5_constant_time_witness :
    timingSafeEqual [171, 5] [171, 6] = false ∧
    (timingSafeEqualAux [171, 5] [171, 6]).2 = 2 ∧
    verifySignature (fun _ _ => "ab05") { timestamp := .fin 0, signature := "ab06" } "x" "s"
      = false := by
  have h := c5_constant_time_compare [171, 5] [171, 6] rfl
  refine ⟨?_, ?_, ?_⟩
  · cases hc : timingSafeEqual [171, 5] [171, 6] with
    | false => rfl
    | true => exact absurd (h.1.mp hc) (by decide)
  · exact h.2.1
  · have hv := h.2.2.2 (fun _ _ => "ab05") { timestamp := .fin 0, signature := "ab06" } "x" "s"
      (by decide) (by decide)
    cases hc : verifySignature (fun _ _ => "ab05")
        { timestamp := .fin 0, signature := "ab06" } "x" "s" with
    | false => rfl
    | true => exact absurd (hv.mp hc) (by decide)

/-- C6: a fully authenticated request (config present, header parsed,
timestamp fresh, signature valid) whose JSON payload carries any event
other than guest_booked is answered with the 200 ignoredEvent response
carrying the event name, and the sink is called zero times. -/
theorem c6_ignored_event (hmac : String → String → String)
    (parseJson : String → Option JicooEventPayload) (now : Int) (config : RuntimeConfig)
    (header rawBody : String) (sinkOk : Bool) (payload : JicooEventPayload)
    (parts : SignatureParts)
    (hs : jsTruthy (RuntimeConfig.jicooSecret config) = true)
    (hu : jsTruthy (RuntimeConfig.slackWebhookUrl config) = true)
    (hp : parseSignature header = some parts)
    (hf : isFreshTimestamp now parts.timestamp = true)
    (hv : verifySignature hmac parts rawBody (config.jicooSecret.getD "") = true)
    (hj : parseJson rawBody = some payload)
    (he : payload.event ≠ "guest_booked") :
    POST hmac parseJson now config (some header) rawBody sinkOk
      = (.ignoredEvent payload.event, 0) ∧
    statusOf (.ignoredEvent payload.event) = 200 := by
  constructor
  · unfold POST
    simp [hs, hu, hp, hf, hv, hj, he]
  · rfl

/-- C6 witness: an authenticated guest_rescheduled payload is answered
with the ignoredEvent response and no sink call. -/
theorem c6_ignored_event_witness :
    POST (fun _ _ => "ab") (fun _ => some { event := "guest_rescheduled" }) 0
        { slackWebhookUrl := some "https://hooks.slack.com/services/x", jicooSecret := some "s" }
        (some "t=0, v1=ab") "{}" true
      = (.ignoredEvent "guest_rescheduled", 0) :=
  (c6_ignored_event (fun _ _ => "ab") (fun _ => some { event := "guest_rescheduled" }) 0
    { slackWebhookUrl := some "https://hooks.slack.com/services/x", jicooSecret := some "s" }
    "t=0, v1=ab" "{}" true { event := "guest_rescheduled" }
    { timestamp := .fin 0, signature := "ab" }
    rfl rfl (by decide)
    (by simp only [isFreshTimestamp, SIGNATURE_TOLERANCE_SECONDS, decide_eq_true_eq]
        norm_num)
    (by decide) rfl (by decide)).1

/-- C7 counterexample: for an unparseable date string the route's catch
branch returns the input string itself, not the fallback placeholder the
claim demands. -/
theorem c7_counterexample :
    toJstString (some "x") = "x" ∧ ¬ "x" = FALLBACK_TEXT :=
  ⟨rfl, by decide⟩

/-- C7 (amended): an absent start or end field renders as the fallback
placeholder; a parseable timestamp is rendered in UTC+9 through the
ja-JP formatter with slashes replaced by dashes; an unparseable
non-empty timestamp string makes the formatter throw, and the catch
branch renders the raw input string itself instead of the fallback. -/
theorem c7_jst_rendering :
    toJstString none = FALLBACK_TEXT ∧
    (∀ s : String, ¬ s = "" → jsDateParse s = none → toJstString (some s) = s) ∧
    (∀ s : String, ∀ epoch : Int, jsDateParse s = some epoch →
      toJstString (some s) = replaceSlashes (formatJaJp epoch)) := by
  refine ⟨rfl, ?_, ?_⟩
  · intro s hne hparse
    show (if s = "" then FALLBACK_TEXT
          else
            match jsDateParse s with
            | some epoch => replaceSlashes (formatJaJp epoch)
            | none => s) = s
    rw [if_neg hne, hparse]
  · intro s epoch hparse
    have hne : ¬ s = "" := by
      intro he
      subst he
      exact Option.noConfusion hparse
    show (if s = "" then FALLBACK_TEXT
          else
            match jsDateParse s with
            | some epoch => replaceSlashes (formatJaJp epoch)
            | none => s) = replaceSlashes (formatJaJp epoch)
    rw [if_neg hne, hparse]

/-- C7 witness: a UTC timestamp renders shifted to UTC+9 in the
YYYY-MM-DD HH:MM shape, and an unparseable string renders as itself. -/
theorem c7_jst_witness :
    toJstString (some "2025-11-16T01:00:00Z") = "2025-11-16 10:00" ∧
    toJstString (some "not-a-date") = "not-a-date" := by
  constructor
  · rw [c7_jst_rendering.2.2 "2025-11-16T01:00:00Z" 1763254800 (by decide)]
    decide
  · exact c7_jst_rendering.2.1 "not-a-date" (by decide) (by decide)

/-- C8 counterexample: with no candidate field qualifying, the route
consults only the FIRST meeting-pattern answer with non-empty content;
when that answer's value is not a URL the result is the placeholder,
while the claim's reading (first matching answer THAT PARSES AS A URL)
would return the second answer's URL. -/
theorem c8_counterexample :
    extractGoogleMeetUrl { event := "guest_booked" }
        [ { question := some "Google Meet", content := some (.str "room 5") }
        , { question := some "Google Meet", content := some (.str "https://meet.google.com/abc") } ]
      = FALLBACK_TEXT ∧
    claimMeetingLink { event := "guest_booked" }
        [ { question := some "Google Meet", content := some (.str "room 5") }
        , { question := some "Google Meet", content := some (.str "https://meet.google.com/abc") } ]
      = "https://meet.google.com/abc" ∧
    ¬ FALLBACK_TEXT = "https://meet.google.com/abc" :=
  ⟨by decide, by decide, by decide⟩

/-- C8 (amended): the meeting link equals the first candidate, in the
route's fixed order, that after trimming parses as a well-formed
http(s) URL — a present candidate that is not such a URL is skipped in
favour of the next — and if no candidate qualifies, the first matching
meeting-pattern answer with non-empty content is used if it parses as a
URL, otherwise the fallback placeholder. -/
theorem c8_meeting_link (p : JicooEventPayload) (answers : List JicooAnswer) :
    extractGoogleMeetUrl p answers = claimMeetingLinkAmended p answers ∧
    (∀ c : Option String, ∀ rest : List (Option String), ∀ v : String,
      normalizeText c = some v → looksLikeUrl v = false →
      findUrlLoop (c :: rest) = findUrlLoop rest) := by
  constructor
  · unfold extractGoogleMeetUrl claimMeetingLinkAmended
    rw [findUrlLoop_eq_findSome]
  · intro c rest v hn hu
    rw [findUrlLoop, hn]
    simp [hu]

/-- C8 witness: a present plain-text candidate is skipped and the loop
continues with the remaining candidates. -/
theorem c8_meeting_link_witness :
    findUrlLoop [some "room 5", some "https://meet.google.com/abc"]
      = findUrlLoop [some "https://meet.google.com/abc"] :=
  (c8_meeting_link { event := "guest_booked" } []).2
    (some "room 5") [some "https://meet.google.com/abc"] "room 5" (by decide) (by decide)

/-- C9 counterexample: a guest_booked payload with no contact, no
answers and no meeting-link fields but with an (unparseable) startedAt
renders the start field as that raw string, so not all six fields equal
the placeholder as the claim states. -/
theorem c9_counterexample :
    (buildSlackPayload { event := "guest_booked", object := some { startedAt := some "x" } }).text
      = "新しい予約を受信しました\n・名前: 不明\n・メール: 不明\n・電話番号: 不明\n・開始時刻: x\n・終了時刻: 不明\n・Google Meet: 不明" ∧
    ¬ "x" = FALLBACK_TEXT :=
  ⟨by decide, by decide⟩

/-- C9 (amended): for every guest_booked payload with no contact
object, no answers, no meeting-link fields AND no start/end timestamp
fields, all six rendered fields equal the shared fallback placeholder in
both the plain-text message and the block list. -/
theorem c9_all_fallback (p : JicooEventPayload)
    (hev : p.event = "guest_booked") (hc : p.contact = none) (ha : p.answers = none)
    (hobj : ∀ o, p.object = some o →
      o.contact = none ∧ o.answers = none ∧ o.startedAt = none ∧ o.endedAt = none ∧
      o.googleMeetUrl = none ∧ o.hangoutLink = none ∧ o.hangoutUrl = none ∧
      o.meetingUrl = none ∧ o.conferenceUrl = none ∧ o.meeting = none ∧ o.location = none) :
    buildSlackPayload p =
      { text := "新しい予約を受信しました\n・名前: 不明\n・メール: 不明\n・電話番号: 不明\n・開始時刻: 不明\n・終了時刻: 不明\n・Google Meet: 不明"
      , blocks :=
          [ .headerBlock "新しい予約を受信しました"
          , .sectionBlock
              [ "*名前*\n不明", "*メール*\n不明", "*電話番号*\n不明"
              , "*開始時刻*\n不明", "*終了時刻*\n不明", "*Google Meet*\n不明" ] ] } := by
  obtain ⟨ev, obj, ct, ans⟩ := p
  subst hc ha
  cases obj with
  | none => rfl
  | some o =>
    obtain ⟨hoc, hoa, hos, hoe, h1, h2, h3, h4, h5, h6, h7⟩ := hobj o rfl
    obtain ⟨oid, sAt, eAt, etn, eti, c2, a2, gm, hl, hu2, mu, cu, me, lo⟩ := o
    subst hoc hoa hos hoe h1 h2 h3 h4 h5 h6 h7
    rfl

/-- C9 witness: the minimal guest_booked payload carrying only an id
and an event-type name renders all six fields as the placeholder. -/
theorem c9_all_fallback_witness :
    buildSlackPayload
        { event := "guest_booked"
        , object := some { id := some "booking_1", eventTypeName := some "個別相談" } }
      = { text := "新しい予約を受信しました\n・名前: 不明\n・メール: 不明\n・電話番号: 不明\n・開始時刻: 不明\n・終了時刻: 不明\n・Google Meet: 不明"
        , blocks :=
            [ .headerBlock "新しい予約を受信しました"
            , .sectionBlock
                [ "*名前*\n不明", "*メール*\n不明", "*電話番号*\n不明"
                , "*開始時刻*\n不明", "*終了時刻*\n不明", "*Google Meet*\n不明" ] ] } :=
  c9_all_fallback
    { event := "guest_booked"
    , object := some { id := some "booking_1", eventTypeName := some "個別相談" } }
    rfl rfl rfl
    (fun o ho => by
      injection ho with h
      subst h
      exact ⟨rfl, rfl, rfl, rfl, rfl, rfl, rfl, rfl, rfl, rfl, rfl⟩)

/-- C10: when the booking-level contact object is present, name, email
and phone are computed from it alone (phone still falling back to the
phone-pattern answers, never to the top-level contact); replacing the
top-level contact by anything changes nothing. -/
theorem c10_nested_contact_only (p : JicooEventPayload) (obj : BookingObject)
    (c : JicooContact) (answers : List JicooAnswer)
    (hobj : p.object = some obj) (hc : obj.contact = some c) :
    getContactInfo p answers =
      { name := (normalizeText c.name).getD FALLBACK_TEXT
      , email := (normalizeText c.email).getD FALLBACK_TEXT
      , phone := ((normalizeText c.phone).orElse fun _ =>
          findAnswerValue answers phoneQuestionTest).getD FALLBACK_TEXT } ∧
    (∀ tc : Option JicooContact,
      getContactInfo { event := p.event, object := p.object, contact := tc, answers := p.answers }
        answers = getContactInfo p answers) := by
  have key : ∀ q : JicooEventPayload, q.object = some obj →
      getContactInfo q answers =
        { name := (normalizeText c.name).getD FALLBACK_TEXT
        , email := (normalizeText c.email).getD FALLBACK_TEXT
        , phone := ((normalizeText c.phone).orElse fun _ =>
            findAnswerValue answers phoneQuestionTest).getD FALLBACK_TEXT } := by
    intro q hq
    simp [getContactInfo, hq, hc, Option.orElse]
  constructor
  · exact key p hobj
  · intro tc
    rw [key { event := p.event, object := p.object, contact := tc, answers := p.answers } hobj,
      key p hobj]

/-- C10 witness: a nested contact lacking a name beside a top-level
contact carrying one renders the name as the placeholder — the
top-level name is ignored. -/
theorem c10_nested_contact_witness :
    getContactInfo
        { event := "guest_booked", object := some { contact := some {} }
        , contact := some { name := some "山田太郎" } } []
      = { name := FALLBACK_TEXT, email := FALLBACK_TEXT, phone := FALLBACK_TEXT } := by
  rw [(c10_nested_contact_only
      { event := "guest_booked", object := some { contact := some {} }
      , contact := some { name := some "山田太郎" } }
      { contact := some {} } {} [] rfl rfl).1]
  rfl

end JicooBot
